import Mathlib

/-!
Shallow embedding of `src/services/gemini_service.py` (class `GeminiService`).

Modelling conventions:
* Python exceptions are values: a computation that may let an exception escape
  returns `Except Unit α`; `Except.error ()` means an uncaught exception
  propagates to the caller.
* The remote model call `generate_content_async` is an oracle passed in as an
  `Except Unit GenResponse`: `.error ()` means the awaited call raised; `.ok r`
  means it returned the response object `r`.
* The library response object exposes `candidates` (only its emptiness matters,
  modelled as a `Nat` count) and a `.text` property that either returns a
  string or raises `ValueError` (modelled as `Option String`, `none` = raises).
* `json.loads` is modelled by an executable recursive-descent JSON parser
  (`json_loads`) over the characters of the reply: strict JSON numbers,
  strings with the standard escapes (`\uXXXX` for non-surrogate code points),
  `true`/`false`/`null`, arrays and objects; Python dict building keeps the
  first position of a duplicated key but overwrites its value.
* `re.sub(r'```json\s*|\s*```', '', s)` is modelled by `fenceSub`: a
  left-to-right scan trying the first alternative then the second at each
  position, removing non-overlapping matches; `str.strip` by `pyStripChars`.
  The `\s` / `strip` whitespace class is modelled by its ASCII part.
* `random.shuffle` is external nondeterminism: the operation takes a
  `shuffle : List Json → List Json` oracle; theorems that need it assume the
  oracle permutes its input.
* Each operation also reports whether the remote model was invoked (the `Bool`
  component of the result).
-/

inductive Json where
  | obj (pairs : List (String × Json)) : Json
  | arr (items : List Json) : Json
  | str (value : String) : Json
  | num (raw : String) : Json
  | bool (value : Bool) : Json
  | null : Json

/-- JSON inter-token whitespace accepted by Python `json.loads`. -/
def isJsonWs (c : Char) : Bool :=
  c = ' ' || c = '\t' || c = '\n' || c = '\r'

def skipWs (cs : List Char) : List Char := cs.dropWhile isJsonWs

def hexDigitVal (c : Char) : Option Nat :=
  let n := c.toNat
  if 48 ≤ n && n ≤ 57 then some (n - 48)
  else if 97 ≤ n && n ≤ 102 then some (n - 87)
  else if 65 ≤ n && n ≤ 70 then some (n - 55)
  else none

/-- Body of a JSON string, after the opening quote has been consumed.
Accumulates decoded characters in reverse.  Rejects raw control characters
(strict mode) and surrogate `\u` escapes (not representable as `Char`). -/
def parseStringBody : Nat → List Char → List Char → Option (String × List Char)
  | 0, _, _ => none
  | _ + 1, _, [] => none
  | n + 1, acc, c :: cs =>
    if c = '\"' then some (String.mk acc.reverse, cs)
    else if c = '\\' then
      match cs with
      | [] => none
      | e :: cs2 =>
        if e = '\"' then parseStringBody n ('\"' :: acc) cs2
        else if e = '\\' then parseStringBody n ('\\' :: acc) cs2
        else if e = '/' then parseStringBody n ('/' :: acc) cs2
        else if e = 'b' then parseStringBody n ('\x08' :: acc) cs2
        else if e = 'f' then parseStringBody n ('\x0c' :: acc) cs2
        else if e = 'n' then parseStringBody n ('\n' :: acc) cs2
        else if e = 'r' then parseStringBody n ('\r' :: acc) cs2
        else if e = 't' then parseStringBody n ('\t' :: acc) cs2
        else if e = 'u' then
          match cs2 with
          | h1 :: h2 :: h3 :: h4 :: cs3 =>
            match hexDigitVal h1, hexDigitVal h2, hexDigitVal h3, hexDigitVal h4 with
            | some a, some b, some c2, some d =>
              let code := ((a * 16 + b) * 16 + c2) * 16 + d
              if 0xD800 ≤ code && code ≤ 0xDFFF then none
              else parseStringBody n (Char.ofNat code :: acc) cs3
            | _, _, _, _ => none
          | _ => none
        else none
    else if c.toNat < 0x20 then none
    else parseStringBody n (c :: acc) cs

/-- Integer part of a strict JSON number: `0`, or a nonzero digit followed by
digits. -/
def parseIntPart : List Char → Option (List Char × List Char)
  | [] => none
  | c :: r =>
    if c = '0' then some ([c], r)
    else if c.isDigit then some (c :: r.takeWhile Char.isDigit, r.dropWhile Char.isDigit)
    else none

def parseFracPart (cs : List Char) : Option (List Char × List Char) :=
  match cs with
  | '.' :: r =>
    let ds := r.takeWhile Char.isDigit
    if ds = [] then none else some ('.' :: ds, r.dropWhile Char.isDigit)
  | _ => some ([], cs)

def parseExpPart (cs : List Char) : Option (List Char × List Char) :=
  match cs with
  | c :: r =>
    if c = 'e' || c = 'E' then
      let (sgn, r2) :=
        match r with
        | '+' :: r3 => (['+'], r3)
        | '-' :: r3 => (['-'], r3)
        | _ => (([] : List Char), r)
      let ds := r2.takeWhile Char.isDigit
      if ds = [] then none
      else some (c :: (sgn ++ ds), r2.dropWhile Char.isDigit)
    else some ([], cs)
  | [] => some ([], [])

/-- A strict JSON number token; the raw consumed characters are kept. -/
def parseNumber (cs : List Char) : Option (String × List Char) :=
  let (sign, cs1) :=
    match cs with
    | '-' :: r => ((['-'] : List Char), r)
    | _ => (([] : List Char), cs)
  match parseIntPart cs1 with
  | none => none
  | some (ip, cs2) =>
    match parseFracPart cs2 with
    | none => none
    | some (fp, cs3) =>
      match parseExpPart cs3 with
      | none => none
      | some (ep, cs4) => some (String.mk (sign ++ ip ++ fp ++ ep), cs4)

/-- Python dict building: a repeated key keeps its first position but the
value is overwritten. -/
def insertMember : List (String × Json) → String → Json → List (String × Json)
  | [], k, v => [(k, v)]
  | (k2, v2) :: rest, k, v =>
    if k2 = k then (k, v) :: rest else (k2, v2) :: insertMember rest k v

mutual

def parseValue : Nat → List Char → Option (Json × List Char)
  | 0, _ => none
  | n + 1, cs =>
    match skipWs cs with
    | [] => none
    | c :: rest =>
      if c = '\x7b' then
        match skipWs rest with
        | '\x7d' :: r2 => some (.obj [], r2)
        | _ => parseMembers n rest []
      else if c = '[' then
        match skipWs rest with
        | ']' :: r2 => some (.arr [], r2)
        | _ => parseElems n rest []
      else if c = '\"' then
        match parseStringBody rest.length [] rest with
        | some (s, r2) => some (.str s, r2)
        | none => none
      else if c = 't' then
        if rest.take 3 = ['r', 'u', 'e'] then some (.bool true, rest.drop 3) else none
      else if c = 'f' then
        if rest.take 4 = ['a', 'l', 's', 'e'] then some (.bool false, rest.drop 4) else none
      else if c = 'n' then
        if rest.take 3 = ['u', 'l', 'l'] then some (.null, rest.drop 3) else none
      else
        match parseNumber (c :: rest) with
        | some (s, r2) => some (.num s, r2)
        | none => none

def parseMembers : Nat → List Char → List (String × Json) → Option (Json × List Char)
  | 0, _, _ => none
  | n + 1, cs, acc =>
    match skipWs cs with
    | '\"' :: rest =>
      match parseStringBody rest.length [] rest with
      | none => none
      | some (k, r2) =>
        match skipWs r2 with
        | ':' :: r3 =>
          match parseValue n r3 with
          | none => none
          | some (v, r4) =>
            match skipWs r4 with
            | ',' :: r5 => parseMembers n r5 (insertMember acc k v)
            | '\x7d' :: r5 => some (.obj (insertMember acc k v), r5)
            | _ => none
        | _ => none
    | _ => none

def parseElems : Nat → List Char → List Json → Option (Json × List Char)
  | 0, _, _ => none
  | n + 1, cs, acc =>
    match parseValue n cs with
    | none => none
    | some (v, r) =>
      match skipWs r with
      | ',' :: r2 => parseElems n r2 (v :: acc)
      | ']' :: r2 => some (.arr (v :: acc).reverse, r2)
      | _ => none

end

/-- Model of Python `json.loads`: parse one value, then require only
whitespace to remain.  The fuel `2 * length + 2` dominates the recursion
depth of any input that does not fail anyway. -/
def json_loads (s : String) : Option Json :=
  match parseValue (2 * s.data.length + 2) s.data with
  | some (j, rest) => if skipWs rest = [] then some j else none
  | none => none

/-- The ASCII part of Python's regex `\s` / `str.strip` whitespace class. -/
def pyIsSpace (c : Char) : Bool :=
  c = ' ' || c = '\t' || c = '\n' || c = '\r' || c = '\x0b' || c = '\x0c'

/-- One attempt of the pattern `` ```json\s*|\s*``` `` at the current
position, Python semantics: the first alternative is tried first; `\s*` is
greedy, and since a backtick is not whitespace no backtracking inside the
second alternative can succeed with a shorter whitespace run.  Returns the
number of characters the match consumes. -/
def fenceMatchLen (cs : List Char) : Option Nat :=
  if cs.take 7 = "```json".data then
    some (7 + ((cs.drop 7).takeWhile pyIsSpace).length)
  else
    if (cs.drop ((cs.takeWhile pyIsSpace).length)).take 3 = "```".data then
      some ((cs.takeWhile pyIsSpace).length + 3)
    else none

/-- Left-to-right scan of `re.sub(pattern, '', s)`: at each position remove a
match if one starts there, otherwise keep the character and move on.  Every
match consumes at least three characters, so fuel equal to the length of the
input is enough. -/
def fenceSubAux : Nat → List Char → List Char
  | 0, _ => []
  | _ + 1, [] => []
  | n + 1, c :: cs =>
    match fenceMatchLen (c :: cs) with
    | some k => fenceSubAux n (List.drop k (c :: cs))
    | none => c :: fenceSubAux n cs

def fenceSub (cs : List Char) : List Char := fenceSubAux cs.length cs

/-- Python `str.strip()` (ASCII whitespace part). -/
def pyStripChars (cs : List Char) : List Char :=
  ((cs.dropWhile pyIsSpace).reverse.dropWhile pyIsSpace).reverse

/-- `re.sub(r'```json\s*|\s*```', '', s).strip()` — the cleanup applied to the
model reply in `analyze_message` and `generate_verification_challenge`. -/
def cleanJsonText (s : String) : String :=
  String.mk (pyStripChars (fenceSub s.data))

/-- The process configuration consumed by the service (`config.py` values
used in `gemini_service.py`).  `GEMINI_API_KEY` is truthy iff nonempty. -/
structure Config where
  GEMINI_API_KEY : String
  ENABLE_AI_FILTER : Bool

/-- The service object: after `__init__`, each model handle is non-`None`
exactly when the API key was truthy. -/
structure GeminiService where
  filter_model : Bool
  verification_model : Bool

/-- `GeminiService.__init__`. -/
def GeminiService.mkService (cfg : Config) : GeminiService :=
  if cfg.GEMINI_API_KEY ≠ "" then ⟨true, true⟩ else ⟨false, false⟩

/-- The remote library's response object: a candidate count (only emptiness
is inspected) and the `.text` property, which raises `ValueError` (`none`)
when no text is extractable. -/
structure GenResponse where
  candidates : Nat
  text : Option String

/-- The `image_bytes` argument as far as the code can distinguish it:
falsy (`None` or empty), truthy but `Image.open` raises, or truthy and
decodable. -/
inductive ImageArg where
  | absent : ImageArg
  | undecodable : ImageArg
  | decodable : ImageArg
deriving DecidableEq

/-- An entry of the `content` list sent to the model (the fixed prompt text
appended after the emptiness check carries no information the claims need). -/
inductive ContentPart where
  | txt (s : String) : ContentPart
  | image : ContentPart
deriving DecidableEq

/-- The `content` list built from the message before the prompt is appended:
the text if truthy, then the decoded image if `Image.open` succeeded (a
decode failure is swallowed and the image dropped). -/
def buildContent (msgText : String) (image : ImageArg) : List ContentPart :=
  (if msgText ≠ "" then [ContentPart.txt msgText] else []) ++
    (match image with
     | .decodable => [ContentPart.image]
     | _ => [])

def disabledVerdict : Json :=
  .obj [("is_spam", .bool false), ("reason", .str "AI filter disabled")]

def noContentVerdict : Json :=
  .obj [("is_spam", .bool false), ("reason", .str "No content to analyze")]

def blockedVerdict : Json :=
  .obj [("is_spam", .bool true), ("reason", .str "内容审查失败，可能包含不当内容。")]

def analysisFailedVerdict : Json :=
  .obj [("is_spam", .bool false), ("reason", .str "Analysis failed")]

/-- `GeminiService.analyze_message`.  The result pairs the value returned to
the caller (`Except.error ()` would mean an exception escaped — this never
happens here: the inner `response.text` diagnostic print in the handler is
guarded by `try/except ValueError`) with whether the remote model was
invoked. -/
def analyze_message (svc : GeminiService) (cfg : Config) (msgText : String)
    (image : ImageArg) (remote : Except Unit GenResponse) :
    Except Unit Json × Bool :=
  if !svc.filter_model || !cfg.ENABLE_AI_FILTER then
    (.ok disabledVerdict, false)
  else if buildContent msgText image = [] then
    (.ok noContentVerdict, false)
  else
    match remote with
    | .error _ => (.ok analysisFailedVerdict, true)
    | .ok resp =>
      if resp.candidates = 0 then
        (.ok blockedVerdict, true)
      else
        match resp.text with
        | none => (.ok analysisFailedVerdict, true)
        | some t =>
          if t = "" then (.ok analysisFailedVerdict, true)
          else
            match json_loads (cleanJsonText t) with
            | some j => (.ok j, true)
            | none => (.ok analysisFailedVerdict, true)

def unblockFallback : Json :=
  .obj [("question", .str "中国的首都是哪里？"), ("answer", .str "北京")]

/-- `GeminiService.generate_unblock_question`.  `json.loads(response.text)`
is applied to the raw reply with no fence stripping; the handler only prints,
so no exception escapes. -/
def generate_unblock_question (svc : GeminiService)
    (remote : Except Unit GenResponse) : Except Unit Json × Bool :=
  if !svc.verification_model then (.ok unblockFallback, false)
  else
    match remote with
    | .error _ => (.ok unblockFallback, true)
    | .ok resp =>
      match resp.text with
      | none => (.ok unblockFallback, true)
      | some t =>
        match json_loads t with
        | some j => (.ok j, true)
        | none => (.ok unblockFallback, true)

def challengeFallback : Json :=
  .obj [("question", .str "1 + 1 = ?"), ("correct_answer", .str "2"),
    ("options", .arr [.str "1", .str "2", .str "3", .str "4"])]

/-- Python subscript `data[k]` for a string key: succeeds only on a dict that
has the key (otherwise `TypeError`/`KeyError`).  Keys are unique because the
parser builds objects with `insertMember`. -/
def lookupKey : List (String × Json) → String → Option Json
  | [], _ => none
  | (k2, v) :: rest, k => if k2 = k then some v else lookupKey rest k

def jsonGet (j : Json) (k : String) : Option Json :=
  match j with
  | .obj kvs => lookupKey kvs k
  | _ => none

/-- `GeminiService.generate_verification_challenge`.  The `except` handler
evaluates `hasattr(response, 'text')`, which re-invokes the `.text` property;
`hasattr` converts only `AttributeError` to `False`, so when the property
raises `ValueError` the handler itself raises and the exception escapes the
method: that is the `Except.error ()` outcome below (reached exactly when the
remote call returned a response whose `.text` raises, which is also what made
the body raise at `if not response.text`).  On every other failure the
handler finishes and the fixed fallback is returned. -/
def generate_verification_challenge (svc : GeminiService)
    (remote : Except Unit GenResponse) (shuffle : List Json → List Json) :
    Except Unit Json × Bool :=
  if !svc.verification_model then (.ok challengeFallback, false)
  else
    match remote with
    | .error _ => (.ok challengeFallback, true)
    | .ok resp =>
      match resp.text with
      | none => (.error (), true)
      | some t =>
        if t = "" then (.ok challengeFallback, true)
        else
          match json_loads (cleanJsonText t) with
          | none => (.ok challengeFallback, true)
          | some data =>
            match jsonGet data "correct_answer" with
            | none => (.ok challengeFallback, true)
            | some ca =>
              match jsonGet data "incorrect_answers" with
              | some (.arr ia) =>
                match jsonGet data "question" with
                | none => (.ok challengeFallback, true)
                | some q =>
                  (.ok (.obj [("question", q), ("correct_answer", ca),
                    ("options", .arr (shuffle (ia ++ [ca])))]), true)
              | _ => (.ok challengeFallback, true)

/-- A code-fenced spam verdict reply (spec test 6). -/
def fencedSpamReply : String :=
  "```json\n\x7b\"is_spam\": true, \"reason\": \"辱骂\"\x7d\n```"

/-- A syntactically valid JSON reply that has none of the verdict keys. -/
def missingKeysReply : String := "\x7b\"foo\": 1\x7d"

/-- A challenge reply whose `incorrect_answers` has only two entries. -/
def twoDistractorReply : String :=
  "\x7b\"question\": \"Q\", \"correct_answer\": \"A\", \"incorrect_answers\": [\"B\", \"C\"]\x7d"

/-- A well-formed challenge reply with exactly three distractors (spec test 7). -/
def threeDistractorReply : String :=
  "\x7b\"question\": \"Q\", \"correct_answer\": \"A\", \"incorrect_answers\": [\"B\", \"C\", \"D\"]\x7d"

/-- A code-fenced unblock-question reply: valid JSON only after fence
stripping, which `generate_unblock_question` does not perform. -/
def fencedUnblockReply : String :=
  "```json\n\x7b\"question\": \"Q\", \"answer\": \"A\"\x7d\n```"

theorem unblock_calls_remote (svc : GeminiService) (remote : Except Unit GenResponse)
    (h : svc.verification_model = true) :
    (generate_unblock_question svc remote).2 = true := by
  cases remote with
  | error e => simp [generate_unblock_question, h]
  | ok resp =>
    cases htext : resp.text with
    | none => simp [generate_unblock_question, h, htext]
    | some t =>
      cases hp : json_loads t with
      | none => simp [generate_unblock_question, h, htext, hp]
      | some j => simp [generate_unblock_question, h, htext, hp]

theorem challenge_calls_remote (svc : GeminiService) (remote : Except Unit GenResponse)
    (shuffle : List Json → List Json) (h : svc.verification_model = true) :
    (generate_verification_challenge svc remote shuffle).2 = true := by
  cases remote with
  | error e => simp [generate_verification_challenge, h]
  | ok resp =>
    cases htext : resp.text with
    | none => simp [generate_verification_challenge, h, htext]
    | some t =>
      simp only [generate_verification_challenge, h, htext, Bool.not_true, reduceIte]
      repeat' first | rfl | split
      all_goals simp_all

/-- Claim C1: the spec says no exception ever escapes any of the three public
operations.  `analyze_message` and `generate_unblock_question` indeed always
return a value, but `generate_verification_challenge` lets the text accessor's
`ValueError` escape: when the remote call returns a response whose `.text`
property raises, the body raises at `if not response.text`, and the handler's
`hasattr(response, 'text')` re-invokes the property — `hasattr` turns only
`AttributeError` into `False`, so the `ValueError` propagates out of the
method instead of producing the fallback. -/
theorem claim_c1_exception_escape :
    (∀ (svc : GeminiService) (cfg : Config) (msgText : String) (image : ImageArg)
        (remote : Except Unit GenResponse),
        ∃ j called, analyze_message svc cfg msgText image remote = (.ok j, called))
  ∧ (∀ (svc : GeminiService) (remote : Except Unit GenResponse),
        ∃ j called, generate_unblock_question svc remote = (.ok j, called))
  ∧ generate_verification_challenge ⟨true, true⟩ (.ok ⟨0, none⟩) id =
      (.error (), true) := by
  refine ⟨?_, ?_, rfl⟩
  · intro svc cfg msgText image remote
    unfold analyze_message
    repeat' first | exact ⟨_, _, rfl⟩ | split
  · intro svc remote
    unfold generate_unblock_question
    repeat' first | exact ⟨_, _, rfl⟩ | split

/-- Claim C2, counterexample: a reply whose `incorrect_answers` has only two
entries deviates from the documented contract, yet the code performs no
length check, raises nothing, and returns the pass-through object (with a
three-element `options`) rather than the fixed fallback. -/
theorem claim_c2_counterexample :
    generate_verification_challenge ⟨true, true⟩ (.ok ⟨1, some twoDistractorReply⟩) id =
      (.ok (.obj [("question", .str "Q"), ("correct_answer", .str "A"),
        ("options", .arr [.str "B", .str "C", .str "A"])]), true)
  ∧ Json.obj [("question", .str "Q"), ("correct_answer", .str "A"),
      ("options", .arr [.str "B", .str "C", .str "A"])] ≠ challengeFallback := by
  exact ⟨rfl, by simp [challengeFallback]⟩

/-- Claim C2, amended: with the verification model configured, every path of
`generate_verification_challenge` that raises after the reply text has been
retrieved — empty text, malformed JSON, a non-object reply, a missing
`question`/`correct_answer`/`incorrect_answers` key, or a non-list
`incorrect_answers` — and likewise a failure of the remote call itself,
returns exactly the fixed fallback
`{question: "1 + 1 = ?", correct_answer: "2", options: ["1","2","3","4"]}`
with that fixed option order.  (A wrong-length `incorrect_answers` list is
not checked and does not trigger the fallback; a reply whose text accessor
raises escapes as an exception instead.) -/
theorem claim_c2_amended (svc : GeminiService) (remote : Except Unit GenResponse)
    (shuffle : List Json → List Json)
    (hconf : svc.verification_model = true)
    (hfail : remote = .error () ∨
      ∃ resp t, remote = .ok resp ∧ resp.text = some t ∧
        (t = "" ∨ json_loads (cleanJsonText t) = none ∨
         ∃ data, json_loads (cleanJsonText t) = some data ∧
           (jsonGet data "correct_answer" = none ∨
            jsonGet data "question" = none ∨
            ∀ ia : List Json, jsonGet data "incorrect_answers" ≠ some (.arr ia))) ) :
    generate_verification_challenge svc remote shuffle = (.ok challengeFallback, true) := by
  rcases hfail with hrem | ⟨resp, t, hrem, htext, hbad⟩
  · subst hrem
    simp [generate_verification_challenge, hconf]
  · subst hrem
    rcases hbad with hempty | hbad | ⟨data, hparse, hbad⟩
    · subst hempty
      simp [generate_verification_challenge, hconf, htext]
    · simp [generate_verification_challenge, hconf, htext, hbad]
    · rcases hbad with hca | hq | hia
      · simp [generate_verification_challenge, hconf, htext, hparse, hca]
      · cases hca2 : jsonGet data "correct_answer" with
        | none => simp [generate_verification_challenge, hconf, htext, hparse, hca2]
        | some ca =>
          cases hia2 : jsonGet data "incorrect_answers" with
          | none =>
            simp [generate_verification_challenge, hconf, htext, hparse, hca2, hia2]
          | some v =>
            cases v <;>
              simp [generate_verification_challenge, hconf, htext, hparse, hca2, hia2, hq]
      · cases hca2 : jsonGet data "correct_answer" with
        | none => simp [generate_verification_challenge, hconf, htext, hparse, hca2]
        | some ca =>
          cases hia2 : jsonGet data "incorrect_answers" with
          | none =>
            simp [generate_verification_challenge, hconf, htext, hparse, hca2, hia2]
          | some v =>
            cases v <;>
              first
                | exact absurd hia2 (hia _)
                | simp [generate_verification_challenge, hconf, htext, hparse, hca2, hia2]

theorem claim_c2_amended_witness :
    generate_verification_challenge ⟨true, true⟩ (.ok ⟨1, some "not json"⟩) id =
      (.ok challengeFallback, true) :=
  claim_c2_amended ⟨true, true⟩ (.ok ⟨1, some "not json"⟩) id rfl
    (Or.inr ⟨⟨1, some "not json"⟩, "not json", rfl, rfl, Or.inr (Or.inl rfl)⟩)

/-- Claim C3: with the filter configured and enabled, non-empty content, a
reply with at least one candidate and non-empty text, `analyze_message`
applies the fence-stripping cleanup to the text, parses the remainder as
JSON, and returns the parsed value directly as the verdict with no schema
validation; in particular the fenced reply
`` ```json\n{"is_spam": true, "reason": "辱骂"}\n``` `` yields
`{is_spam: true, reason: "辱骂"}`, and a valid-JSON reply with missing keys
is returned uninterpreted. -/
theorem claim_c3_fence_strip_passthrough :
    (∀ (svc : GeminiService) (cfg : Config) (msgText : String) (image : ImageArg)
        (resp : GenResponse) (t : String) (j : Json),
        svc.filter_model = true → cfg.ENABLE_AI_FILTER = true →
        buildContent msgText image ≠ [] → resp.candidates ≠ 0 →
        resp.text = some t → t ≠ "" →
        json_loads (cleanJsonText t) = some j →
        analyze_message svc cfg msgText image (.ok resp) = (.ok j, true))
  ∧ analyze_message ⟨true, true⟩ ⟨"key", true⟩ "hello" .absent
      (.ok ⟨1, some fencedSpamReply⟩) =
      (.ok (.obj [("is_spam", .bool true), ("reason", .str "辱骂")]), true)
  ∧ analyze_message ⟨true, true⟩ ⟨"key", true⟩ "hello" .absent
      (.ok ⟨1, some missingKeysReply⟩) =
      (.ok (.obj [("foo", .num "1")]), true) := by
  refine ⟨?_, rfl, rfl⟩
  intro svc cfg msgText image resp t j h1 h2 h3 h4 htext hne hparse
  simp [analyze_message, h1, h2, h3, h4, htext, hne, hparse]

theorem claim_c3_witness :
    analyze_message ⟨true, true⟩ ⟨"key", true⟩ "buy now" .absent
      (.ok ⟨1, some fencedSpamReply⟩) =
      (.ok (.obj [("is_spam", .bool true), ("reason", .str "辱骂")]), true) :=
  claim_c3_fence_strip_passthrough.1 ⟨true, true⟩ ⟨"key", true⟩ "buy now" .absent
    ⟨1, some fencedSpamReply⟩ fencedSpamReply
    (.obj [("is_spam", .bool true), ("reason", .str "辱骂")])
    rfl rfl (by decide) (by decide) rfl (by decide) rfl

/-- Claim C4: with the filter configured and enabled and non-empty content,
a remote reply with zero candidates makes `analyze_message` fail closed:
`{is_spam: true}` with the fixed moderation-failed reason is returned even
though no exception occurred. -/
theorem claim_c4_fail_closed_blocked (svc : GeminiService) (cfg : Config)
    (msgText : String) (image : ImageArg) (resp : GenResponse)
    (h1 : svc.filter_model = true) (h2 : cfg.ENABLE_AI_FILTER = true)
    (h3 : buildContent msgText image ≠ []) (h4 : resp.candidates = 0) :
    analyze_message svc cfg msgText image (.ok resp) = (.ok blockedVerdict, true) := by
  simp [analyze_message, h1, h2, h3, h4]

theorem claim_c4_witness :
    analyze_message ⟨true, true⟩ ⟨"key", true⟩ "some text" .absent (.ok ⟨0, none⟩) =
      (.ok blockedVerdict, true) :=
  claim_c4_fail_closed_blocked ⟨true, true⟩ ⟨"key", true⟩ "some text" .absent
    ⟨0, none⟩ rfl rfl (by decide) rfl

/-- Claim C5: with the filter configured and enabled and non-empty content,
every failure — the remote call raising, the text accessor raising, an empty
textual payload, or a JSON parse failure on the cleaned text — makes
`analyze_message` fail open with `{is_spam: false, reason: "Analysis failed"}`
(the zero-candidate branch of C4 having been checked first). -/
theorem claim_c5_fail_open_failure (svc : GeminiService) (cfg : Config)
    (msgText : String) (image : ImageArg) (remote : Except Unit GenResponse)
    (h1 : svc.filter_model = true) (h2 : cfg.ENABLE_AI_FILTER = true)
    (h3 : buildContent msgText image ≠ [])
    (hfail : remote = .error () ∨
      ∃ resp, remote = .ok resp ∧ resp.candidates ≠ 0 ∧
        (resp.text = none ∨ resp.text = some "" ∨
         ∃ t, resp.text = some t ∧ json_loads (cleanJsonText t) = none)) :
    analyze_message svc cfg msgText image remote = (.ok analysisFailedVerdict, true) := by
  rcases hfail with hrem | ⟨resp, hrem, hcand, hbad⟩
  · subst hrem
    simp [analyze_message, h1, h2, h3]
  · subst hrem
    rcases hbad with htext | htext | ⟨t, htext, hparse⟩
    · simp [analyze_message, h1, h2, h3, hcand, htext]
    · simp [analyze_message, h1, h2, h3, hcand, htext]
    · simp [analyze_message, h1, h2, h3, hcand, htext, hparse]

theorem claim_c5_witness :
    analyze_message ⟨true, true⟩ ⟨"key", true⟩ "some text" .absent
      (.ok ⟨2, some "truncated \x7b"⟩) = (.ok analysisFailedVerdict, true) :=
  claim_c5_fail_open_failure ⟨true, true⟩ ⟨"key", true⟩ "some text" .absent
    (.ok ⟨2, some "truncated \x7b"⟩) rfl rfl (by decide)
    (Or.inr ⟨⟨2, some "truncated \x7b"⟩, rfl, by decide,
      Or.inr (Or.inr ⟨"truncated \x7b", rfl, rfl⟩)⟩)

/-- Claim C6: when the challenge reply parses to an object carrying
`question`, `correct_answer` and a three-element `incorrect_answers` list,
the returned `options` is the shuffle of the three distractors plus the
correct answer — a four-element permutation of that multiset — the returned
`correct_answer` is the parsed one, and it is an element of `options`. -/
theorem claim_c6_options_permutation (svc : GeminiService) (resp : GenResponse)
    (t : String) (kvs : List (String × Json)) (ca q : Json) (ia : List Json)
    (shuffle : List Json → List Json)
    (hconf : svc.verification_model = true)
    (htext : resp.text = some t) (hne : t ≠ "")
    (hparse : json_loads (cleanJsonText t) = some (.obj kvs))
    (hca : lookupKey kvs "correct_answer" = some ca)
    (hia : lookupKey kvs "incorrect_answers" = some (.arr ia))
    (hq : lookupKey kvs "question" = some q)
    (hlen : ia.length = 3)
    (hshuf : ∀ l : List Json, (shuffle l).Perm l) :
    generate_verification_challenge svc (.ok resp) shuffle =
      (.ok (.obj [("question", q), ("correct_answer", ca),
        ("options", .arr (shuffle (ia ++ [ca])))]), true)
    ∧ (shuffle (ia ++ [ca])).Perm (ia ++ [ca])
    ∧ (shuffle (ia ++ [ca])).length = 4
    ∧ ca ∈ shuffle (ia ++ [ca]) := by
  refine ⟨?_, hshuf _, ?_, ?_⟩
  · simp [generate_verification_challenge, hconf, htext, hne, hparse, jsonGet,
      hca, hia, hq]
  · rw [(hshuf _).length_eq]
    simp [hlen]
  · exact ((hshuf _).mem_iff).2 (by simp)

theorem claim_c6_witness :
    generate_verification_challenge ⟨true, true⟩ (.ok ⟨1, some threeDistractorReply⟩) id =
      (.ok (.obj [("question", .str "Q"), ("correct_answer", .str "A"),
        ("options", .arr (id ([Json.str "B", Json.str "C", Json.str "D"] ++ [Json.str "A"])))]), true)
    ∧ (id ([Json.str "B", Json.str "C", Json.str "D"] ++ [Json.str "A"])).Perm
        ([Json.str "B", Json.str "C", Json.str "D"] ++ [Json.str "A"])
    ∧ (id ([Json.str "B", Json.str "C", Json.str "D"] ++ [Json.str "A"])).length = 4
    ∧ Json.str "A" ∈ id ([Json.str "B", Json.str "C", Json.str "D"] ++ [Json.str "A"]) :=
  claim_c6_options_permutation ⟨true, true⟩ ⟨1, some threeDistractorReply⟩
    threeDistractorReply
    [("question", Json.str "Q"), ("correct_answer", Json.str "A"),
      ("incorrect_answers", Json.arr [Json.str "B", Json.str "C", Json.str "D"])]
    (Json.str "A") (Json.str "Q") [Json.str "B", Json.str "C", Json.str "D"] id
    rfl rfl (by decide) rfl rfl rfl rfl rfl (fun l => List.Perm.refl l)

/-- Claim C7: whenever the adapter is unconfigured (empty API credential, so
the filter handle is `None`) or the AI-filter feature flag is off,
`analyze_message` returns `{is_spam: false, reason: "AI filter disabled"}`
for any text and any image, and performs no remote call. -/
theorem claim_c7_disabled_no_call (cfg : Config) (msgText : String)
    (image : ImageArg) (remote : Except Unit GenResponse)
    (h : cfg.GEMINI_API_KEY = "" ∨ cfg.ENABLE_AI_FILTER = false) :
    analyze_message (GeminiService.mkService cfg) cfg msgText image remote =
      (.ok disabledVerdict, false) := by
  rcases h with h | h
  · simp [analyze_message, GeminiService.mkService, h]
  · simp [analyze_message, h]

theorem claim_c7_witness :
    analyze_message (GeminiService.mkService ⟨"key", false⟩) ⟨"key", false⟩
      "buy now!!!" .absent (.error ()) = (.ok disabledVerdict, false) :=
  claim_c7_disabled_no_call ⟨"key", false⟩ "buy now!!!" .absent (.error ())
    (Or.inr rfl)

/-- Claim C8: with the adapter configured and the flag on, if no usable text
is supplied and the image is absent or fails to decode, the content list is
empty and `analyze_message` returns
`{is_spam: false, reason: "No content to analyze"}` without a remote call;
moreover a decode failure is silently dropped: an undecodable image behaves
exactly like an absent one for every input. -/
theorem claim_c8_no_content :
    (∀ (cfg : Config) (image : ImageArg) (remote : Except Unit GenResponse),
        cfg.GEMINI_API_KEY ≠ "" → cfg.ENABLE_AI_FILTER = true →
        image ≠ ImageArg.decodable →
        analyze_message (GeminiService.mkService cfg) cfg "" image remote =
          (.ok noContentVerdict, false))
  ∧ (∀ (svc : GeminiService) (cfg : Config) (msgText : String)
        (remote : Except Unit GenResponse),
        analyze_message svc cfg msgText ImageArg.undecodable remote =
          analyze_message svc cfg msgText ImageArg.absent remote) := by
  constructor
  · intro cfg image remote hkey hflag himg
    have hsvc : GeminiService.mkService cfg = ⟨true, true⟩ := by
      simp [GeminiService.mkService, hkey]
    have hcontent : buildContent "" image = [] := by
      cases image <;> simp [buildContent] at himg ⊢
    simp [analyze_message, hsvc, hflag, hcontent]
  · intro svc cfg msgText remote
    rfl

theorem claim_c8_witness :
    analyze_message (GeminiService.mkService ⟨"key", true⟩) ⟨"key", true⟩
      "" .undecodable (.error ()) = (.ok noContentVerdict, false) :=
  claim_c8_no_content.1 ⟨"key", true⟩ .undecodable (.error ())
    (by decide) rfl (by decide)

/-- Claim C9: `generate_unblock_question` parses the reply text as JSON with
no fence-stripping step (a code-fenced reply therefore fails to parse and
falls back), returns the same fixed capital-of-China fallback on unconfigured
state and on every exception (remote failure, text accessor raising, parse
failure), and returns a valid bare-JSON reply as-is.  The fenced example
parses after `cleanJsonText` but not raw, showing the fallback is caused
precisely by the absence of the stripping step. -/
theorem claim_c9_unblock_no_fence_strip :
    (∀ (svc : GeminiService) (resp : GenResponse) (t : String) (j : Json),
        svc.verification_model = true → resp.text = some t →
        json_loads t = some j →
        generate_unblock_question svc (.ok resp) = (.ok j, true))
  ∧ (∀ (svc : GeminiService) (resp : GenResponse) (t : String),
        svc.verification_model = true → resp.text = some t →
        json_loads t = none →
        generate_unblock_question svc (.ok resp) = (.ok unblockFallback, true))
  ∧ (∀ (svc : GeminiService) (remote : Except Unit GenResponse),
        svc.verification_model = false →
        generate_unblock_question svc remote = (.ok unblockFallback, false))
  ∧ (∀ svc : GeminiService, svc.verification_model = true →
        generate_unblock_question svc (.error ()) = (.ok unblockFallback, true))
  ∧ (∀ (svc : GeminiService) (resp : GenResponse),
        svc.verification_model = true → resp.text = none →
        generate_unblock_question svc (.ok resp) = (.ok unblockFallback, true))
  ∧ json_loads fencedUnblockReply = none
  ∧ json_loads (cleanJsonText fencedUnblockReply) =
      some (.obj [("question", .str "Q"), ("answer", .str "A")])
  ∧ generate_unblock_question ⟨true, true⟩ (.ok ⟨1, some fencedUnblockReply⟩) =
      (.ok unblockFallback, true) := by
  refine ⟨?_, ?_, ?_, ?_, ?_, rfl, rfl, rfl⟩
  · intro svc resp t j hconf htext hparse
    simp [generate_unblock_question, hconf, htext, hparse]
  · intro svc resp t hconf htext hparse
    simp [generate_unblock_question, hconf, htext, hparse]
  · intro svc remote hconf
    simp [generate_unblock_question, hconf]
  · intro svc hconf
    simp [generate_unblock_question, hconf]
  · intro svc resp hconf htext
    simp [generate_unblock_question, hconf, htext]

theorem claim_c9_witness :
    generate_unblock_question ⟨true, true⟩ (.ok ⟨1, some "5"⟩) =
      (.ok (Json.num "5"), true) :=
  claim_c9_unblock_no_fence_strip.1 ⟨true, true⟩ ⟨1, some "5"⟩ "5" (Json.num "5")
    rfl rfl rfl

/-- Claim C10: the AI-filter flag gates only `analyze_message`.  With a
credential configured and the flag off, `generate_unblock_question` and
`generate_verification_challenge` behave exactly as with the flag on and
still invoke the remote model, while `analyze_message` short-circuits to the
disabled verdict without a call. -/
theorem claim_c10_flag_gates_only_analyze (key : String)
    (remote : Except Unit GenResponse) (shuffle : List Json → List Json)
    (msgText : String) (image : ImageArg)
    (hkey : key ≠ "") :
    (generate_unblock_question (GeminiService.mkService ⟨key, false⟩) remote =
       generate_unblock_question (GeminiService.mkService ⟨key, true⟩) remote)
  ∧ (generate_verification_challenge (GeminiService.mkService ⟨key, false⟩) remote shuffle =
       generate_verification_challenge (GeminiService.mkService ⟨key, true⟩) remote shuffle)
  ∧ (generate_unblock_question (GeminiService.mkService ⟨key, false⟩) remote).2 = true
  ∧ (generate_verification_challenge (GeminiService.mkService ⟨key, false⟩) remote shuffle).2 = true
  ∧ analyze_message (GeminiService.mkService ⟨key, false⟩) ⟨key, false⟩
      msgText image remote = (.ok disabledVerdict, false) := by
  have hsvc : GeminiService.mkService ⟨key, false⟩ = ⟨true, true⟩ := by
    simp [GeminiService.mkService, hkey]
  have hsvc2 : GeminiService.mkService ⟨key, true⟩ = ⟨true, true⟩ := by
    simp [GeminiService.mkService, hkey]
  refine ⟨by rw [hsvc, hsvc2], by rw [hsvc, hsvc2], ?_, ?_, ?_⟩
  · rw [hsvc]
    exact unblock_calls_remote ⟨true, true⟩ remote rfl
  · rw [hsvc]
    exact challenge_calls_remote ⟨true, true⟩ remote shuffle rfl
  · simp [analyze_message]

theorem claim_c10_witness :
    (generate_unblock_question (GeminiService.mkService ⟨"key", false⟩) (.error ()) =
       generate_unblock_question (GeminiService.mkService ⟨"key", true⟩) (.error ()))
  ∧ (generate_verification_challenge (GeminiService.mkService ⟨"key", false⟩) (.error ()) id =
       generate_verification_challenge (GeminiService.mkService ⟨"key", true⟩) (.error ()) id)
  ∧ (generate_unblock_question (GeminiService.mkService ⟨"key", false⟩) (.error ())).2 = true
  ∧ (generate_verification_challenge (GeminiService.mkService ⟨"key", false⟩) (.error ()) id).2 = true
  ∧ analyze_message (GeminiService.mkService ⟨"key", false⟩) ⟨"key", false⟩
      "hello" .absent (.error ()) = (.ok disabledVerdict, false) :=
  claim_c10_flag_gates_only_analyze "key" (.error ()) id "hello" .absent (by decide)
